import Mathlib

/-!
Verification development for the Alduin CLI agent
(`src/alduin/main.py`, `src/alduin/ui.py`, `src/alduin/personality.py`).

The Python code is shallowly embedded: Python strings become Lean `String`
(a wrapper around `List Char`, matching Python's code-point semantics),
`str.strip()` / `str.lower()` / slicing become explicit list operations,
exceptions become an explicit outcome type, and the interactive agent loop
becomes a step function over an input script together with an oracle for
the external LLM API.
-/

namespace Alduin

/-! ### Python string primitives -/

/-- The ASCII whitespace characters removed by Python `str.strip()`. -/
def pyIsSpace (c : Char) : Bool :=
  c = ' ' || c = '\t' || c = '\n' || c = '\r' || c = '\x0b' || c = '\x0c'

/-- `str.strip()` on the underlying character list: drop whitespace from
both ends. -/
def stripChars (l : List Char) : List Char :=
  ((l.dropWhile pyIsSpace).reverse.dropWhile pyIsSpace).reverse

/-- Embedding of Python `s.strip()`. -/
def pystrip (s : String) : String :=
  ⟨stripChars s.data⟩

/-- Embedding of Python `s[:n]`: the first `n` code points. -/
def pytake (s : String) (n : Nat) : String :=
  ⟨s.data.take n⟩

/-- Embedding of Python `s.lower()`. -/
def pylower (s : String) : String :=
  ⟨s.data.map Char.toLower⟩

/-! ### ui.py -/

/-- `MAX_RESULT_LENGTH = 100` (ui.py line 13). -/
def MAX_RESULT_LENGTH : Nat := 100

/-- The display text computed by `print_tool_result` (ui.py line 140):
`result if len(result) <= MAX_RESULT_LENGTH else result[:MAX_RESULT_LENGTH] + "\n… (truncated)"`. -/
def print_tool_result_display (result : String) : String :=
  if result.length ≤ MAX_RESULT_LENGTH then result
  else pytake result MAX_RESULT_LENGTH ++ "\n… (truncated)"

/-- Outcome of the line read inside `confirm` (ui.py line 239): either a
line of input, or a `KeyboardInterrupt`/`EOFError` raised during the read. -/
inductive ReadOutcome where
  | line (s : String)
  | interrupted
deriving DecidableEq

/-- `confirm` (ui.py lines 221-242), as a function of the read outcome:
`answer = input(...).strip().lower()` with interrupt/EOF caught and
returning `False`, else `answer in ("y", "yes")`. -/
def confirm (read : ReadOutcome) : Bool :=
  match read with
  | ReadOutcome.interrupted => false
  | ReadOutcome.line s =>
      let answer := pylower (pystrip s)
      [ "y", "yes"].contains answer

/-! ### main.py data model -/

/-- A tool-argument mapping (the JSON object passed as `block.input` and
expanded as keyword arguments), modelled as an association list. -/
abbrev Args := List (String × String)

/-- Result of invoking a tool callable: a normal return value, or a raised
exception carrying its detail string. -/
inductive ToolOutcome where
  | ok (result : String)
  | exn (detail : String)

/-- A tool callable from the lookup table. -/
abbrev ToolFn := Args → ToolOutcome

/-- One terminal rendering action performed through the `ui` module. -/
inductive UIEvent where
  | banner
  | goodbye
  | clearLine
  | userMessage (text : String)
  | assistantReply (text : String) (inputTokens outputTokens : Nat)
  | toolRequest (name : String) (args : Args)
  | toolResult (name : String) (result : String)
  | toolError (name : String) (error : String)
  | errorPanel (message : String)
deriving DecidableEq

/-- A content block of an LLM response (`block.type` is `"text"`,
`"tool_use"`, or anything else, which the loop ignores). -/
inductive Block where
  | text (text : String)
  | tool_use (name : String) (input : Args)
  | other (type : String)
deriving DecidableEq

/-- A message of the conversation transcript. -/
inductive Message where
  | user (content : String)
  | assistant (content : List Block)
deriving DecidableEq

/-- The structured response returned by `llm.call`. -/
structure LLMResponse where
  content : List Block
  input_tokens : Nat
  output_tokens : Nat

/-! ### execute_tool (main.py lines 13-55) -/

/-- Everything observable about one `execute_tool` call: the returned
string, the UI panels rendered, and which callables were invoked. -/
structure ExecResult where
  output : String
  events : List UIEvent
  invoked : List String
deriving DecidableEq

/-- `execute_tool` (main.py lines 13-55). `tools_lookup_table.get(name)`
returns `None` exactly when the name is not a key; a present callable is
invoked inside `try`, with any exception caught and converted to the
`"Error: callling tool …"` message (typo as in the source). -/
def execute_tool (name_of_tool_to_execute : String)
    (tools_lookup_table : List (String × ToolFn)) (args : Args) : ExecResult :=
  match tools_lookup_table.lookup name_of_tool_to_execute with
  | none =>
      let error_msg := "Error: unknown tool " ++ name_of_tool_to_execute
      { output := error_msg
        events := [UIEvent.toolError name_of_tool_to_execute error_msg]
        invoked := [] }
  | some tool_fn =>
      match tool_fn args with
      | ToolOutcome.ok result =>
          { output := result
            events := [UIEvent.toolRequest name_of_tool_to_execute args,
                       UIEvent.toolResult name_of_tool_to_execute result]
            invoked := [name_of_tool_to_execute] }
      | ToolOutcome.exn ex =>
          let error_msg :=
            "Error: callling tool " ++ name_of_tool_to_execute ++ "\n" ++ ex
          { output := error_msg
            events := [UIEvent.toolRequest name_of_tool_to_execute args,
                       UIEvent.toolError name_of_tool_to_execute error_msg]
            invoked := [name_of_tool_to_execute] }

/-! ### agent_loop (main.py lines 58-113) -/

/-- One event at the `🧑‍💻 You:` prompt: a line of input, or a
`KeyboardInterrupt`/`EOFError`. -/
inductive InputEvent where
  | line (s : String)
  | interrupt
deriving DecidableEq

/-- Observable state of one `agent_loop` session: the conversation
transcript, the UI events rendered so far, and how many times
`schema_converter.generate_tool_schema` and `llm.call` have run. -/
structure LoopState where
  conversation : List Message
  events : List UIEvent
  schemaCalls : Nat
  llmCalls : Nat
deriving DecidableEq

/-- The state at loop entry: `conversation = []`, nothing rendered, the
schema converter and the LLM not yet called. -/
def initState : LoopState :=
  { conversation := [], events := [], schemaCalls := 0, llmCalls := 0 }

/-- The rendering of one content block by the `for block in
llm_response.content` loop (main.py lines 99-113): a text block prints an
assistant reply, a tool_use block runs `execute_tool`, any other block
type is ignored. -/
def renderBlock (tools_lookup : List (String × ToolFn))
    (input_tokens output_tokens : Nat) : Block → List UIEvent
  | Block.text t => [UIEvent.assistantReply t input_tokens output_tokens]
  | Block.tool_use name input => (execute_tool name tools_lookup input).events
  | Block.other _ => []

/-- One iteration of the `while True` body of `agent_loop` (main.py lines
71-113), given the input event and an oracle `llm_call` for the external
API. The returned flag is `false` when the loop `return`s (interrupt/EOF).
`schema_converter.generate_tool_schema(active_tools)` is evaluated inside
the loop body as an argument of `llm.call` (main.py line 93), so
`schemaCalls` increments exactly when `llmCalls` does. -/
def agent_step (llm_call : List Message → LLMResponse)
    (tools_lookup : List (String × ToolFn)) (st : LoopState)
    (ev : InputEvent) : LoopState × Bool :=
  match ev with
  | InputEvent.interrupt =>
      ({ st with events := st.events ++ [UIEvent.clearLine, UIEvent.goodbye] },
       false)
  | InputEvent.line raw =>
      let user_input := pystrip raw
      if user_input = "" then (st, true)
      else
        let conv := st.conversation ++ [Message.user user_input]
        let llm_response := llm_call conv
        let conv2 := conv ++ [Message.assistant llm_response.content]
        let blockEvents :=
          (llm_response.content.map
            (renderBlock tools_lookup llm_response.input_tokens
              llm_response.output_tokens)).flatten
        ({ conversation := conv2
           events := st.events ++
             [UIEvent.clearLine, UIEvent.userMessage user_input] ++ blockEvents
           schemaCalls := st.schemaCalls + 1
           llmCalls := st.llmCalls + 1 }, true)

/-- `agent_loop` (main.py lines 58-113) run over a finite script of input
events, stopping early on interrupt/EOF. -/
def agent_loop (llm_call : List Message → LLMResponse)
    (tools_lookup : List (String × ToolFn)) :
    LoopState → List InputEvent → LoopState
  | st, [] => st
  | st, ev :: rest =>
      let r := agent_step llm_call tools_lookup st ev
      if r.2 then agent_loop llm_call tools_lookup r.1 rest else r.1

/-! ### main (main.py lines 116-131) -/

/-- Observable outcome of `main`: UI events rendered, whether
`anthropic.Anthropic(...)` was constructed, and whether `agent_loop` was
entered. -/
structure MainResult where
  events : List UIEvent
  clientConstructed : Bool
  loopEntered : Bool
deriving DecidableEq

/-- `main` (main.py lines 116-131), as a function of
`os.getenv("ANTHROPIC_API_KEY")` (`none` when the variable is absent).
`if not api_key` is true for `None` and for the empty string. -/
def main (apiKeyEnv : Option String) : MainResult :=
  match apiKeyEnv with
  | none =>
      { events := [UIEvent.banner,
          UIEvent.errorPanel "ANTHROPIC_API_KEY environment variable is not set."]
        clientConstructed := false
        loopEntered := false }
  | some api_key =>
      if api_key = "" then
        { events := [UIEvent.banner,
            UIEvent.errorPanel "ANTHROPIC_API_KEY environment variable is not set."]
          clientConstructed := false
          loopEntered := false }
      else
        { events := [UIEvent.banner]
          clientConstructed := true
          loopEntered := true }

/-! ### Lemmas about `pystrip` -/

theorem head?_stripped_not_space (l : List Char) :
    ∀ c, (l.dropWhile pyIsSpace).head? = some c → pyIsSpace c = false := by
  intro c hc
  have h := List.head?_dropWhile_not pyIsSpace l
  rw [hc] at h
  exact h

theorem dropWhile_eq_self_of_head (p : Char → Bool) (l : List Char)
    (h : ∀ c, l.head? = some c → p c = false) : l.dropWhile p = l := by
  cases l with
  | nil => rfl
  | cons a l =>
      have ha : p a = false := h a rfl
      simp [List.dropWhile_cons, ha]

theorem dropWhile_idem (p : Char → Bool) (l : List Char) :
    (l.dropWhile p).dropWhile p = l.dropWhile p := by
  apply dropWhile_eq_self_of_head
  intro c hc
  have h := List.head?_dropWhile_not p l
  rw [hc] at h
  exact h

theorem exists_append_dropWhile (p : Char → Bool) (l : List Char) :
    ∃ t, t ++ l.dropWhile p = l := by
  induction l with
  | nil => exact ⟨[], rfl⟩
  | cons a l ih =>
      by_cases hpa : p a
      · obtain ⟨t, ht⟩ := ih
        exact ⟨a :: t, by simp [List.dropWhile_cons, hpa, ht]⟩
      · exact ⟨[], by simp [List.dropWhile_cons, hpa]⟩

theorem stripChars_idem (l : List Char) :
    stripChars (stripChars l) = stripChars l := by
  unfold stripChars
  obtain ⟨t, ht⟩ :=
    exists_append_dropWhile pyIsSpace (l.dropWhile pyIsSpace).reverse
  have hld : l.dropWhile pyIsSpace =
      ((l.dropWhile pyIsSpace).reverse.dropWhile pyIsSpace).reverse ++
        t.reverse := by
    have h2 := congrArg List.reverse ht
    simpa [List.reverse_append] using h2.symm
  have h1 :
      (((l.dropWhile pyIsSpace).reverse.dropWhile pyIsSpace).reverse).dropWhile
          pyIsSpace =
        ((l.dropWhile pyIsSpace).reverse.dropWhile pyIsSpace).reverse := by
    apply dropWhile_eq_self_of_head
    intro c hc
    cases hmr : ((l.dropWhile pyIsSpace).reverse.dropWhile pyIsSpace).reverse with
    | nil => rw [hmr] at hc; simp at hc
    | cons a rest =>
        rw [hmr] at hc
        simp at hc
        subst hc
        apply head?_stripped_not_space l
        rw [hld, hmr]
        rfl
  rw [h1, List.reverse_reverse, dropWhile_idem]

theorem pystrip_idem (s : String) : pystrip (pystrip s) = pystrip s :=
  congrArg String.mk (stripChars_idem s.data)

/-! ### Claim theorems -/

/-- C3: a result of at most 100 characters is displayed unmodified by
`print_tool_result`; a longer result is displayed as its first 100
characters followed by `"\n… (truncated)"`. -/
theorem print_tool_result_truncation (result : String) :
    (result.length ≤ 100 → print_tool_result_display result = result) ∧
      (result.length > 100 →
        print_tool_result_display result =
          pytake result 100 ++ "\n… (truncated)") := by
  constructor
  · intro h
    simp [print_tool_result_display, MAX_RESULT_LENGTH, h]
  · intro h
    simp [print_tool_result_display, MAX_RESULT_LENGTH, Nat.not_le.mpr h]

/-- C3 boundary witness: a 100-character result is unmodified and a
101-character result is truncated after its first 100 characters. -/
theorem print_tool_result_truncation_witness :
    print_tool_result_display (String.mk (List.replicate 100 'a')) =
        String.mk (List.replicate 100 'a') ∧
      print_tool_result_display (String.mk (List.replicate 101 'a')) =
        pytake (String.mk (List.replicate 101 'a')) 100 ++ "\n… (truncated)" :=
  ⟨(print_tool_result_truncation (String.mk (List.replicate 100 'a'))).1
      (by decide),
   (print_tool_result_truncation (String.mk (List.replicate 101 'a'))).2
      (by decide)⟩

/-- C9: `confirm` returns `true` exactly when the read succeeded and the
trimmed, lowercased answer is `"y"` or `"yes"`; in particular an
interrupt or end-of-input during the read yields `false`. -/
theorem confirm_true_iff (r : ReadOutcome) :
    confirm r = true ↔
      ∃ s, r = ReadOutcome.line s ∧
        (pylower (pystrip s) = "y" ∨ pylower (pystrip s) = "yes") := by
  cases r with
  | interrupted =>
      simp [confirm]
  | line s =>
      simp [confirm, List.contains]

/-- C1: when the requested tool name is not a key of the lookup table,
`execute_tool` returns exactly `"Error: unknown tool {name}"`, renders
only a tool-error panel with that message, and invokes no callable. -/
theorem execute_tool_unknown_tool (name : String)
    (tools_lookup_table : List (String × ToolFn)) (args : Args)
    (h : tools_lookup_table.lookup name = none) :
    execute_tool name tools_lookup_table args =
      { output := "Error: unknown tool " ++ name
        events := [UIEvent.toolError name ("Error: unknown tool " ++ name)]
        invoked := [] } := by
  simp [execute_tool, h]

/-- C1 witness: requesting `delete_universe` against the table built from
`[read_file]` returns the unknown-tool error and invokes nothing. -/
theorem execute_tool_unknown_tool_witness :
    execute_tool "delete_universe"
        [("read_file", fun _ => ToolOutcome.ok "contents")] [] =
      { output := "Error: unknown tool delete_universe"
        events := [UIEvent.toolError "delete_universe"
          "Error: unknown tool delete_universe"]
        invoked := [] } :=
  execute_tool_unknown_tool "delete_universe"
    [("read_file", fun _ => ToolOutcome.ok "contents")] [] rfl

/-- C2: when the requested tool is present and its invocation raises an
exception, `execute_tool` catches it, renders a tool-request panel then a
tool-error panel, and returns exactly
`"Error: callling tool {name}\n{detail}"` (typo as in the source). -/
theorem execute_tool_exception (name : String)
    (tools_lookup_table : List (String × ToolFn)) (args : Args)
    (tool_fn : ToolFn) (detail : String)
    (hlookup : tools_lookup_table.lookup name = some tool_fn)
    (hexn : tool_fn args = ToolOutcome.exn detail) :
    execute_tool name tools_lookup_table args =
      { output := "Error: callling tool " ++ name ++ "\n" ++ detail
        events := [UIEvent.toolRequest name args,
          UIEvent.toolError name
            ("Error: callling tool " ++ name ++ "\n" ++ detail)]
        invoked := [name] } := by
  simp [execute_tool, hlookup, hexn]

/-- C2 witness: a tool that raises is caught and its output is the
`callling` error string. -/
theorem execute_tool_exception_witness :
    execute_tool "read_file"
        [("read_file", fun _ => ToolOutcome.exn "No such file or directory")]
        [("path", "missing.txt")] =
      { output := "Error: callling tool read_file\nNo such file or directory"
        events := [UIEvent.toolRequest "read_file" [("path", "missing.txt")],
          UIEvent.toolError "read_file"
            "Error: callling tool read_file\nNo such file or directory"]
        invoked := ["read_file"] } :=
  execute_tool_exception "read_file"
    [("read_file", fun _ => ToolOutcome.exn "No such file or directory")]
    [("path", "missing.txt")]
    (fun _ => ToolOutcome.exn "No such file or directory")
    "No such file or directory" rfl rfl

/-- C7: an input line that strips to the empty string leaves the loop
state completely unchanged — no message is appended to the transcript,
nothing is rendered, and neither the LLM call wrapper nor the schema
converter runs — and the loop continues to the next prompt. -/
theorem empty_input_is_noop (llm_call : List Message → LLMResponse)
    (tools_lookup : List (String × ToolFn)) (st : LoopState) (raw : String)
    (h : pystrip raw = "") :
    agent_step llm_call tools_lookup st (InputEvent.line raw) = (st, true) := by
  simp [agent_step, h]

/-- C7 witness: a whitespace-only line is a no-op from the initial state. -/
theorem empty_input_is_noop_witness :
    agent_step (fun _ => { content := [], input_tokens := 0, output_tokens := 0 })
        [] initState (InputEvent.line "   ") = (initState, true) :=
  empty_input_is_noop
    (fun _ => { content := [], input_tokens := 0, output_tokens := 0 })
    [] initState "   " (by decide)

/-- C8: when `ANTHROPIC_API_KEY` is absent or empty, `main` renders the
banner and exactly the error text
`"ANTHROPIC_API_KEY environment variable is not set."`, constructs no API
client, and never enters the agent loop. -/
theorem main_missing_api_key (apiKeyEnv : Option String)
    (h : apiKeyEnv = none ∨ apiKeyEnv = some "") :
    main apiKeyEnv =
      { events := [UIEvent.banner,
          UIEvent.errorPanel "ANTHROPIC_API_KEY environment variable is not set."]
        clientConstructed := false
        loopEntered := false } := by
  rcases h with h | h <;> subst h <;> rfl

/-- C8 witness: the absent-variable case. -/
theorem main_missing_api_key_witness :
    main none =
      { events := [UIEvent.banner,
          UIEvent.errorPanel "ANTHROPIC_API_KEY environment variable is not set."]
        clientConstructed := false
        loopEntered := false } :=
  main_missing_api_key none (Or.inl rfl)

/-! ### Helper lemmas about the loop -/

/-- The result of one loop iteration on a line that does not strip to
empty: the user message and the assistant response are appended, one
schema conversion and one LLM call happen, and the loop continues. -/
theorem agent_step_line_of_ne (llm_call : List Message → LLMResponse)
    (tools_lookup : List (String × ToolFn)) (st : LoopState) (raw : String)
    (h : pystrip raw ≠ "") :
    agent_step llm_call tools_lookup st (InputEvent.line raw) =
      ({ conversation :=
           (st.conversation ++ [Message.user (pystrip raw)]) ++
             [Message.assistant
               (llm_call (st.conversation ++ [Message.user (pystrip raw)])).content]
         events := st.events ++
           [UIEvent.clearLine, UIEvent.userMessage (pystrip raw)] ++
           ((llm_call (st.conversation ++ [Message.user (pystrip raw)])).content.map
             (renderBlock tools_lookup
               (llm_call (st.conversation ++ [Message.user (pystrip raw)])).input_tokens
               (llm_call (st.conversation ++ [Message.user (pystrip raw)])).output_tokens)).flatten
         schemaCalls := st.schemaCalls + 1
         llmCalls := st.llmCalls + 1 }, true) := by
  simp [agent_step, h]

/-- A trivial LLM oracle answering with no content blocks, used to build
concrete sessions. -/
def emptyOracle : List Message → LLMResponse :=
  fun _ => { content := [], input_tokens := 0, output_tokens := 0 }

/-- The number of loop iterations of a script that reach the LLM call:
lines that strip to empty are skipped and an interrupt ends the session. -/
def countEffectiveTurns : List InputEvent → Nat
  | [] => 0
  | InputEvent.interrupt :: _ => 0
  | InputEvent.line s :: rest =>
      (if pystrip s = "" then 0 else 1) + countEffectiveTurns rest

/-- Schema-converter and LLM-call counts over any script, from any state. -/
theorem agent_loop_call_counts (llm_call : List Message → LLMResponse)
    (tools_lookup : List (String × ToolFn)) :
    ∀ (script : List InputEvent) (st : LoopState),
      (agent_loop llm_call tools_lookup st script).schemaCalls =
          st.schemaCalls + countEffectiveTurns script ∧
        (agent_loop llm_call tools_lookup st script).llmCalls =
          st.llmCalls + countEffectiveTurns script := by
  intro script
  induction script with
  | nil => intro st; exact ⟨rfl, rfl⟩
  | cons ev rest ih =>
      intro st
      cases ev with
      | interrupt =>
          simp [agent_loop, agent_step, countEffectiveTurns]
      | line s =>
          by_cases h : pystrip s = ""
          · have hstep : agent_step llm_call tools_lookup st (InputEvent.line s) =
                (st, true) := by
              simp [agent_step, h]
            rw [agent_loop, hstep]
            simpa [countEffectiveTurns, h] using ih st
          · rw [agent_loop, agent_step_line_of_ne llm_call tools_lookup st s h]
            simp only [if_true, ite_true]
            constructor
            · rw [(ih _).1]
              simp [countEffectiveTurns, h]
              omega
            · rw [(ih _).2]
              simp [countEffectiveTurns, h]
              omega

/-- C4 counterexample: in a concrete two-turn session the schema
converter runs twice — once per LLM call inside the loop body — so it
does not run exactly once at startup. -/
theorem schema_converter_runs_twice_cex :
    (agent_loop emptyOracle [] initState
        [InputEvent.line "hi", InputEvent.line "there"]).schemaCalls = 2 := by
  decide

/-- C4 amended: `generate_tool_schema` is evaluated inside the loop body
as an argument of `llm.call` (main.py line 93), so over any session it
runs exactly once per LLM call — once per non-empty, non-exiting user
turn — and zero times when no turn reaches the LLM. -/
theorem schema_converter_once_per_llm_call (llm_call : List Message → LLMResponse)
    (tools_lookup : List (String × ToolFn)) (script : List InputEvent) :
    (agent_loop llm_call tools_lookup initState script).schemaCalls =
        countEffectiveTurns script ∧
      (agent_loop llm_call tools_lookup initState script).llmCalls =
        countEffectiveTurns script := by
  have h := agent_loop_call_counts llm_call tools_lookup script initState
  simpa [initState] using h

/-- C5: tool dispatch leaves the transcript alone. For any LLM response —
including one whose blocks are tool-use requests — the transcript after
the whole iteration is exactly the transcript just after the assistant
message was appended; `execute_tool` output is rendered but never
appended. -/
theorem tool_dispatch_preserves_transcript (llm_call : List Message → LLMResponse)
    (tools_lookup : List (String × ToolFn)) (st : LoopState) (raw : String)
    (h : pystrip raw ≠ "") :
    (agent_step llm_call tools_lookup st (InputEvent.line raw)).1.conversation =
      (st.conversation ++ [Message.user (pystrip raw)]) ++
        [Message.assistant
          (llm_call (st.conversation ++ [Message.user (pystrip raw)])).content] := by
  rw [agent_step_line_of_ne llm_call tools_lookup st raw h]

/-- An oracle whose every answer is a single tool-use request, used to
witness that tool execution does not touch the transcript. -/
def toolUseOracle : List Message → LLMResponse :=
  fun _ =>
    { content := [Block.tool_use "read_file" [("path", "notes.txt")]]
      input_tokens := 1
      output_tokens := 1 }

/-- A concrete tool table entry for witnesses. -/
def sampleReadFileTool : ToolFn :=
  fun _ => ToolOutcome.ok "file contents"

/-- C5 witness: in a turn whose response is one tool-use block, the
transcript ends at the assistant message — the executed tool appended
nothing. -/
theorem tool_dispatch_preserves_transcript_witness :
    (agent_step toolUseOracle [("read_file", sampleReadFileTool)] initState
        (InputEvent.line "hi")).1.conversation =
      [Message.user "hi",
       Message.assistant [Block.tool_use "read_file" [("path", "notes.txt")]]] :=
  (tool_dispatch_preserves_transcript toolUseOracle
      [("read_file", sampleReadFileTool)] initState "hi" (by decide)).trans
    (by decide)

/-- `True` exactly on the transcripts of shape user, assistant, user,
assistant, … of even length starting with a user message. -/
def alternatingUA : List Message → Bool
  | [] => true
  | Message.user _ :: Message.assistant _ :: rest => alternatingUA rest
  | Message.user _ :: Message.user _ :: _ => false
  | [Message.user _] => false
  | Message.assistant _ :: _ => false

theorem list_pair_induction {α : Type} (P : List α → Prop) (h0 : P [])
    (h1 : ∀ a, P [a]) (h2 : ∀ a b l, P l → P (a :: b :: l)) : ∀ l, P l
  | [] => h0
  | [a] => h1 a
  | a :: b :: l => h2 a b l (list_pair_induction P h0 h1 h2 l)

theorem alternatingUA_append_pair (u : String) (c : List Block) :
    ∀ l, alternatingUA (l ++ [Message.user u, Message.assistant c]) =
      alternatingUA l := by
  apply list_pair_induction
  · simp [alternatingUA]
  · intro a
    cases a <;> simp [alternatingUA]
  · intro a b l ih
    cases a <;> cases b <;> simp [alternatingUA, ih]

/-- `true` on a line whose text does not strip to empty. -/
def isNonEmptyLine : InputEvent → Bool
  | InputEvent.line s => pystrip s != ""
  | InputEvent.interrupt => false

/-- Transcript length and alternation over any script of non-empty,
non-exiting lines, from any state. -/
theorem agent_loop_transcript_shape (llm_call : List Message → LLMResponse)
    (tools_lookup : List (String × ToolFn)) :
    ∀ (script : List InputEvent) (st : LoopState),
      script.all isNonEmptyLine = true →
      (agent_loop llm_call tools_lookup st script).conversation.length =
          st.conversation.length + 2 * script.length ∧
        (alternatingUA st.conversation = true →
          alternatingUA
            (agent_loop llm_call tools_lookup st script).conversation = true) := by
  intro script
  induction script with
  | nil =>
      intro st _
      exact ⟨rfl, fun h => h⟩
  | cons ev rest ih =>
      intro st hall
      rw [List.all_cons, Bool.and_eq_true] at hall
      cases ev with
      | interrupt => simp [isNonEmptyLine] at hall
      | line s =>
          have hs : pystrip s ≠ "" := by
            have := hall.1
            simpa [isNonEmptyLine, bne_iff_ne] using this
          rw [agent_loop, agent_step_line_of_ne llm_call tools_lookup st s hs]
          simp only [if_true, ite_true]
          obtain ⟨ihlen, ihalt⟩ := ih _ hall.2
          constructor
          · rw [ihlen]
            simp [List.length_append]
            omega
          · intro halt
            apply ihalt
            have happ := alternatingUA_append_pair (pystrip s)
              (llm_call (st.conversation ++ [Message.user (pystrip s)])).content
              st.conversation
            simp only [List.append_assoc] at happ ⊢
            simp only [List.cons_append, List.nil_append] at happ ⊢
            rw [happ]
            exact halt

/-- C6: after `N` successive non-empty, non-exiting user turns, the
transcript holds exactly `2N` messages, strictly alternating user,
assistant, user, assistant, … starting with a user message — whatever the
LLM answers, tool calls included. -/
theorem transcript_turn_ordering (llm_call : List Message → LLMResponse)
    (tools_lookup : List (String × ToolFn)) (script : List InputEvent)
    (h : script.all isNonEmptyLine = true) :
    (agent_loop llm_call tools_lookup initState script).conversation.length =
        2 * script.length ∧
      alternatingUA
        (agent_loop llm_call tools_lookup initState script).conversation = true := by
  have hsh := agent_loop_transcript_shape llm_call tools_lookup script initState h
  exact ⟨by simpa [initState] using hsh.1, hsh.2 rfl⟩

/-- C6 witness: two non-empty turns give a 4-message alternating
transcript. -/
theorem transcript_turn_ordering_witness :
    (agent_loop emptyOracle [] initState
        [InputEvent.line "a", InputEvent.line "b"]).conversation.length = 4 ∧
      alternatingUA (agent_loop emptyOracle [] initState
        [InputEvent.line "a", InputEvent.line "b"]).conversation = true := by
  have h := transcript_turn_ordering emptyOracle []
    [InputEvent.line "a", InputEvent.line "b"] (by decide)
  exact ⟨by simpa using h.1, h.2⟩

/-- Every user message a session can put into the transcript is the
stripped, non-empty input line, so the invariant propagates from any
state satisfying it. -/
theorem agent_loop_user_invariant (llm_call : List Message → LLMResponse)
    (tools_lookup : List (String × ToolFn)) :
    ∀ (script : List InputEvent) (st : LoopState),
      (∀ c, Message.user c ∈ st.conversation → c ≠ "" ∧ pystrip c = c) →
      ∀ c, Message.user c ∈
          (agent_loop llm_call tools_lookup st script).conversation →
        c ≠ "" ∧ pystrip c = c := by
  intro script
  induction script with
  | nil => intro st hst; exact hst
  | cons ev rest ih =>
      intro st hst
      cases ev with
      | interrupt =>
          intro c hc
          exact hst c hc
      | line s =>
          by_cases h : pystrip s = ""
          · have hstep : agent_step llm_call tools_lookup st (InputEvent.line s) =
                (st, true) := by
              simp [agent_step, h]
            rw [agent_loop, hstep]
            exact ih st hst
          · rw [agent_loop, agent_step_line_of_ne llm_call tools_lookup st s h]
            simp only [if_true, ite_true]
            apply ih
            intro c hc
            simp only [List.append_assoc, List.mem_append, List.mem_cons,
              List.mem_singleton, List.not_mem_nil] at hc
            rcases hc with hc | hc | hc
            · exact hst c hc
            · rcases hc with hc | hc
              · cases hc
                exact ⟨h, pystrip_idem s⟩
              · simp at hc
            · simp at hc

/-- C10: every user message in the transcript of any session is non-empty
and equal to its own stripped form, because the input is stripped before
the emptiness check and the stripped text is what is appended. -/
theorem user_messages_nonempty_stripped (llm_call : List Message → LLMResponse)
    (tools_lookup : List (String × ToolFn)) (script : List InputEvent)
    (c : String)
    (h : Message.user c ∈
      (agent_loop llm_call tools_lookup initState script).conversation) :
    c ≠ "" ∧ pystrip c = c :=
  agent_loop_user_invariant llm_call tools_lookup script initState
    (by intro c hc; simp [initState] at hc) c h

/-- C10 witness: the turn `" hi "` puts the user message `"hi"` into the
transcript, which is non-empty and fixed by stripping. -/
theorem user_messages_nonempty_stripped_witness :
    ("hi" : String) ≠ "" ∧ pystrip "hi" = "hi" :=
  user_messages_nonempty_stripped emptyOracle [] [InputEvent.line " hi "] "hi"
    (by decide)

end Alduin
